import Mathlib

/-!
Shallow embedding of the pose-coaching core of the repository
(`src/lib/pose-coach.ts`, `src/lib/pose-data.ts`,
`src/hooks/use-pose-detection.ts`) and proofs about it.

Numbers are modelled as real numbers; `Math.hypot a b` is
`Real.sqrt (a ^ 2 + b ^ 2)`; a TypeScript optional field is an `Option`;
a `PoseLandmarkMap` (a partial record over the 17 keypoint names) is a
function `Keypoint → Option PosePoint3D`.
-/

namespace PoseStudio

noncomputable section

/-- The 17 anatomical keypoint names (`PoseKeypointName` in pose-coach.ts). -/
inductive Keypoint where
  | nose | leftEye | rightEye | leftEar | rightEar
  | leftShoulder | rightShoulder | leftElbow | rightElbow
  | leftWrist | rightWrist | leftHip | rightHip
  | leftKnee | rightKnee | leftAnkle | rightAnkle
  deriving DecidableEq

/-- Model of `PosePoint3D` from pose-coach.ts: x, y, z plus optional visibility. -/
structure PosePoint3D where
  x : ℝ
  y : ℝ
  z : ℝ
  visibility : Option ℝ

/-- Model of `PoseLandmarkMap`: a partial record from keypoint names to points. -/
def PoseLandmarkMap := Keypoint → Option PosePoint3D

/-- Model of `Point` from pose-data.ts. -/
structure Point where
  x : ℝ
  y : ℝ

/-- Model of `Skeleton` from pose-data.ts: a complete record of all 17 keypoints. -/
def Skeleton := Keypoint → Point

/-- Model of `FoxEmotion` from pose-coach.ts. -/
inductive FoxEmotion where
  | confused | focused | happy | celebrate
  deriving DecidableEq

/-- Model of `FoxRigSignals` from pose-coach.ts. -/
structure FoxRigSignals where
  headTilt : ℝ
  leftArmLift : ℝ
  rightArmLift : ℝ
  bodyLean : ℝ
  balanceShift : ℝ

/-- Model of `Math.hypot` on two arguments. -/
def hypot (dx dy : ℝ) : ℝ := Real.sqrt (dx ^ 2 + dy ^ 2)

/-- The `clamp` helper of pose-coach.ts (defaults min = -1, max = 1 are
passed explicitly at each use site here). -/
def clamp (value lo hi : ℝ) : ℝ := max lo (min hi value)

/-- Model of `REQUIRED_SCORE_KEYS` from pose-coach.ts: the 9 priority keypoints. -/
def REQUIRED_SCORE_KEYS : List Keypoint :=
  [.nose, .leftShoulder, .rightShoulder, .leftElbow, .rightElbow,
   .leftWrist, .rightWrist, .leftHip, .rightHip]

/-- Model of `visibilityWeight` from pose-coach.ts: `landmarks[key]?.visibility`,
treated as weight 1 when not a number, else `clamp((v - 0.2)/0.8, 0, 1)`. -/
def visibilityWeight (landmarks : PoseLandmarkMap) (key : Keypoint) : ℝ :=
  match (landmarks key).bind PosePoint3D.visibility with
  | none => 1
  | some visibility => clamp ((visibility - 0.2) / 0.8) 0 1

/-- Value of `p?.x ?? 0` for an optional landmark. -/
def xOr0 (p : Option PosePoint3D) : ℝ :=
  match p with
  | none => 0
  | some q => q.x

/-- Value of `p?.y ?? 0` for an optional landmark. -/
def yOr0 (p : Option PosePoint3D) : ℝ :=
  match p with
  | none => 0
  | some q => q.y

/-- Model of `getPoseCenter` from pose-coach.ts: mean of the four torso points,
missing members defaulting to 0; result carries z = 0 and no visibility. -/
def getPoseCenter (landmarks : PoseLandmarkMap) : PosePoint3D :=
  { x := (xOr0 (landmarks .leftHip) + xOr0 (landmarks .rightHip) +
          xOr0 (landmarks .leftShoulder) + xOr0 (landmarks .rightShoulder)) / 4,
    y := (yOr0 (landmarks .leftHip) + yOr0 (landmarks .rightHip) +
          yOr0 (landmarks .leftShoulder) + yOr0 (landmarks .rightShoulder)) / 4,
    z := 0,
    visibility := none }

/-- The body of `getPoseScale` once all four torso points are present:
`0.5·shoulderWidth + 0.2·hipWidth + 0.6·torsoHeight` (pre-floor value). -/
def torsoMeasure (ls rs lh rh : PosePoint3D) : ℝ :=
  hypot (ls.x - rs.x) (ls.y - rs.y) * 0.5 +
  hypot (lh.x - rh.x) (lh.y - rh.y) * 0.2 +
  hypot ((ls.x + rs.x) / 2 - (lh.x + rh.x) / 2)
        ((ls.y + rs.y) / 2 - (lh.y + rh.y) / 2) * 0.6

/-- Model of `getPoseScale` from pose-coach.ts: 1 when any torso point is absent,
else the torso measure floored at 0.0001. -/
def getPoseScale (landmarks : PoseLandmarkMap) : ℝ :=
  match landmarks .leftShoulder, landmarks .rightShoulder,
        landmarks .leftHip, landmarks .rightHip with
  | some ls, some rs, some lh, some rh => max 0.0001 (torsoMeasure ls rs lh rh)
  | _, _, _, _ => 1

/-- Model of `normalizeLandmarks` from pose-coach.ts. -/
def normalizeLandmarks (landmarks : PoseLandmarkMap) : PoseLandmarkMap :=
  fun key =>
    (landmarks key).map fun point =>
      { x := (point.x - (getPoseCenter landmarks).x) / getPoseScale landmarks,
        y := (point.y - (getPoseCenter landmarks).y) / getPoseScale landmarks,
        z := point.z / getPoseScale landmarks,
        visibility := point.visibility }

/-- Model of `skeletonToLandmarks` from pose-coach.ts: divide the 0..100 coordinates
by 100; `toPoint3D` supplies z = 0 and no visibility. -/
def skeletonToLandmarks (skeleton : Skeleton) : PoseLandmarkMap :=
  fun key =>
    some { x := (skeleton key).x / 100, y := (skeleton key).y / 100,
           z := 0, visibility := none }

/-- One iteration of the scoring loop of `calculatePoseMatchScore`:
skip when either normalized landmark is absent, else accumulate
`(weightedDistance, totalWeight)`. -/
def scoreStep (current currentNormalized targetNormalized : PoseLandmarkMap)
    (acc : ℝ × ℝ) (key : Keypoint) : ℝ × ℝ :=
  match currentNormalized key, targetNormalized key with
  | some a, some b =>
      (acc.1 + hypot (a.x - b.x) (a.y - b.y) * visibilityWeight current key,
       acc.2 + visibilityWeight current key)
  | _, _ => acc

/-- The `(weightedDistance, totalWeight)` accumulator of
`calculatePoseMatchScore` after the loop over `REQUIRED_SCORE_KEYS`. -/
def scoreTotals (current : PoseLandmarkMap) (target : Skeleton) : ℝ × ℝ :=
  REQUIRED_SCORE_KEYS.foldl
    (scoreStep current (normalizeLandmarks current)
      (normalizeLandmarks (skeletonToLandmarks target)))
    (0, 0)

/-- Model of `calculatePoseMatchScore` from pose-coach.ts. -/
def calculatePoseMatchScore (current : PoseLandmarkMap)
    (target : Option Skeleton) : ℝ :=
  match target with
  | none => 0
  | some t =>
      if (scoreTotals current t).2 = 0 then 0
      else clamp (1 - (scoreTotals current t).1 / (scoreTotals current t).2 / 1.25) 0 1

/-- Model of `getFoxRigSignals` from pose-coach.ts. -/
def getFoxRigSignals (landmarks : PoseLandmarkMap) : FoxRigSignals :=
  let n := normalizeLandmarks landmarks
  let shoulderSlope :=
    match n .leftShoulder, n .rightShoulder with
    | some ls, some rs => (ls.y - rs.y) * (-2.5)
    | _, _ => 0
  let leftArmAngle :=
    match n .leftShoulder, n .leftElbow, n .leftWrist with
    | some ls, some le, some lw => (ls.y - le.y + le.y - lw.y) * 1.8
    | _, _, _ => 0
  let rightArmAngle :=
    match n .rightShoulder, n .rightElbow, n .rightWrist with
    | some rs, some re, some rw => (rs.y - re.y + re.y - rw.y) * 1.8
    | _, _, _ => 0
  let shoulderWidth :=
    match n .leftShoulder, n .rightShoulder with
    | some ls, some rs => ls.x - rs.x
    | _, _ => 0
  let bodyLean := shoulderWidth * (-0.8)
  let hipCenterX :=
    match n .leftHip, n .rightHip with
    | some lh, some rh => (lh.x + rh.x) / 2
    | _, _ => 0
  let balanceShift := clamp (hipCenterX * 2.4) (-1) 1
  { headTilt := clamp ((match n .nose with | some p => p.x | none => 0) * (-2) +
        shoulderSlope * 0.55) (-1) 1,
    leftArmLift := clamp leftArmAngle (-1) 1,
    rightArmLift := clamp rightArmAngle (-1) 1,
    bodyLean := clamp bodyLean (-1) 1,
    balanceShift := balanceShift }

/-- Model of `getFoxEmotion` from pose-coach.ts, with the `FOX_STATE_THRESHOLDS`
defaults 0.4 / 0.7 / 0.9. -/
def getFoxEmotion (score : ℝ) : FoxEmotion :=
  if score ≤ 0.4 then .confused
  else if score ≤ 0.7 then .focused
  else if score ≤ 0.9 then .happy
  else .celebrate

/-- The visible-key count of `getPoseFeedback`: a priority key counts when
its landmark lacks a numeric visibility (including when the landmark is
absent) or its visibility exceeds 0.45. -/
def visibleCount (landmarks : PoseLandmarkMap) : ℕ :=
  REQUIRED_SCORE_KEYS.foldl
    (fun count key =>
      match (landmarks key).bind PosePoint3D.visibility with
      | none => count + 1
      | some vis => if vis > 0.45 then count + 1 else count)
    0

/-- Model of `getPoseFeedback` from pose-coach.ts. -/
def getPoseFeedback (score : ℝ) (landmarks : PoseLandmarkMap) : String :=
  if visibleCount landmarks < 6 then "Step back so your full upper body is visible."
  else if score < 0.4 then "Fox is playful. Match shoulder and elbow angles first."
  else if score < 0.7 then "Fox is focusing. Small arm and torso adjustments needed."
  else if score < 0.9 then "Nice pose. Hold steady and refine your balance."
  else "Perfect match. Fox is celebrating!"

/-- The normalized Euclidean distance the scorer uses for one priority key
(0 when the key is missing on either side, in which case the loop skips
the key). -/
def keyDistance (current : PoseLandmarkMap) (target : Skeleton) (key : Keypoint) : ℝ :=
  match normalizeLandmarks current key,
        normalizeLandmarks (skeletonToLandmarks target) key with
  | some a, some b => hypot (a.x - b.x) (a.y - b.y)
  | _, _ => 0

/-- Per-key contribution of the scoring loop to `weightedDistance`. -/
def keyTerm1 (current : PoseLandmarkMap) (target : Skeleton) (key : Keypoint) : ℝ :=
  if (normalizeLandmarks current key).isSome then
    keyDistance current target key * visibilityWeight current key
  else 0

/-- Per-key contribution of the scoring loop to `totalWeight`. -/
def keyTerm2 (current : PoseLandmarkMap) (_target : Skeleton) (key : Keypoint) : ℝ :=
  if (normalizeLandmarks current key).isSome then visibilityWeight current key
  else 0

/-- The four score-tier messages of `getPoseFeedback`, indexed by the
emotion whose threshold interval selects them. -/
def tierMessage : FoxEmotion → String
  | .confused => "Fox is playful. Match shoulder and elbow angles first."
  | .focused => "Fox is focusing. Small arm and torso adjustments needed."
  | .happy => "Nice pose. Hold steady and refine your balance."
  | .celebrate => "Perfect match. Fox is celebrating!"

/-- Uniform positive scaling of the x and y coordinates of every landmark
(z untouched), as in claim C4's transformation. -/
def scaleMapXY (s : ℝ) (m : PoseLandmarkMap) : PoseLandmarkMap :=
  fun key => (m key).map fun p => { p with x := s * p.x, y := s * p.y }

/-- Uniform positive scaling of x, y and z of every landmark. -/
def scaleMapXYZ (s : ℝ) (m : PoseLandmarkMap) : PoseLandmarkMap :=
  fun key => (m key).map fun p => { p with x := s * p.x, y := s * p.y, z := s * p.z }

/-- Translation of every landmark by a constant (dx, dy) offset. -/
def translateMap (dx dy : ℝ) (m : PoseLandmarkMap) : PoseLandmarkMap :=
  fun key => (m key).map fun p => { p with x := p.x + dx, y := p.y + dy }

/-- Example map with all four torso points present (unit square) and a
nose landmark with nonzero depth z = 1. -/
def m4 : PoseLandmarkMap :=
  fun key =>
    match key with
    | .leftShoulder => some ⟨1, 0, 0, none⟩
    | .rightShoulder => some ⟨0, 0, 0, none⟩
    | .leftHip => some ⟨1, 1, 0, none⟩
    | .rightHip => some ⟨0, 1, 0, none⟩
    | .nose => some ⟨0, 0, 1, none⟩
    | _ => none

/-- Example map with four priority keys at visibility 0 and the other five
priority keys absent: only 5 of 9 priority keys count as visible. -/
def lowVisMap : PoseLandmarkMap :=
  fun key =>
    match key with
    | .nose => some ⟨0, 0, 0, some 0⟩
    | .leftShoulder => some ⟨0, 0, 0, some 0⟩
    | .rightShoulder => some ⟨0, 0, 0, some 0⟩
    | .leftElbow => some ⟨0, 0, 0, some 0⟩
    | _ => none

/-- Model of `initialPose` from pose-data.ts. -/
def initialPose : Skeleton :=
  fun key =>
    match key with
    | .nose => ⟨50, 25⟩
    | .leftEye => ⟨52, 24⟩
    | .rightEye => ⟨48, 24⟩
    | .leftEar => ⟨55, 26⟩
    | .rightEar => ⟨45, 26⟩
    | .leftShoulder => ⟨65, 35⟩
    | .rightShoulder => ⟨35, 35⟩
    | .leftElbow => ⟨70, 45⟩
    | .rightElbow => ⟨30, 45⟩
    | .leftWrist => ⟨75, 55⟩
    | .rightWrist => ⟨25, 55⟩
    | .leftHip => ⟨60, 60⟩
    | .rightHip => ⟨40, 60⟩
    | .leftKnee => ⟨62, 75⟩
    | .rightKnee => ⟨38, 75⟩
    | .leftAnkle => ⟨64, 90⟩
    | .rightAnkle => ⟨36, 90⟩

/-- A current map that exactly matches `initialPose` after the 0..100 →
0..1 conversion, with every visibility set to 1. -/
def c3Current : PoseLandmarkMap :=
  fun key =>
    some { x := (initialPose key).x / 100, y := (initialPose key).y / 100,
           z := 0, visibility := some 1 }

/-- Map `c3Current` with the nose moved horizontally by one raw unit. -/
def c5Moved : PoseLandmarkMap :=
  fun key =>
    match key with
    | .nose => some { x := (initialPose Keypoint.nose).x / 100 + 1,
                      y := (initialPose Keypoint.nose).y / 100,
                      z := 0, visibility := some 1 }
    | _ => c3Current key

/-- The per-point exponential-smoothing step of the `detect` callback in
use-pose-detection.ts: x, y, z move by `(value - prev) * smoothing` and the
visibility is `prev.visibility ?? value.visibility`. -/
def smoothPoint (prev value : PosePoint3D) (smoothing : ℝ) : PosePoint3D :=
  { x := prev.x + (value.x - prev.x) * smoothing,
    y := prev.y + (value.y - prev.y) * smoothing,
    z := prev.z + (value.z - prev.z) * smoothing,
    visibility :=
      match prev.visibility with
      | some w => some w
      | none => value.visibility }

/-- The smoothing update of the `detect` callback when a previous smoothed
map exists: iterate over the keys of the new detection (`mapped`); for each,
`prev = previous[key] ?? value`. Keys absent from `mapped` are not written. -/
def smoothStep (previous mapped : PoseLandmarkMap) (smoothing : ℝ) : PoseLandmarkMap :=
  fun key =>
    (mapped key).map fun value =>
      smoothPoint ((previous key).getD value) value smoothing

/-- The full smoothing update of `detect`: when no previous map exists the
new detection is stored as-is, else `smoothStep` runs. -/
def updateSmoothed (previous : Option PoseLandmarkMap) (mapped : PoseLandmarkMap)
    (smoothing : ℝ) : PoseLandmarkMap :=
  match previous with
  | none => mapped
  | some prev => smoothStep prev mapped smoothing

/-- The empty landmark map. -/
def emptyMap : PoseLandmarkMap := fun _ => none

/-- Example previous smoothed map: only the nose is tracked. -/
def prevEx : PoseLandmarkMap :=
  fun key =>
    match key with
    | .nose => some ⟨1, 2, 0, none⟩
    | _ => none

/-- Example new detection: only the left eye is reported (nose omitted). -/
def mappedEx : PoseLandmarkMap :=
  fun key =>
    match key with
    | .leftEye => some ⟨4, 5, 0, some 1⟩
    | _ => none

/-- Example previous smoothed map with a recorded visibility at the nose. -/
def prevVisEx : PoseLandmarkMap :=
  fun key =>
    match key with
    | .nose => some ⟨1, 2, 3, some (1 / 2)⟩
    | _ => none

/-- Example new detection with a different visibility at the nose. -/
def mappedVisEx : PoseLandmarkMap :=
  fun key =>
    match key with
    | .nose => some ⟨5, 6, 7, some (9 / 10)⟩
    | _ => none

/-!
Observable state of one acquisition-loop effect run in
`usePoseDetection` (use-pose-detection.ts, the `useEffect` body):
`running` is the closure flag set to `false` by the cleanup;
`created` records whether `PoseLandmarker.createFromOptions` has resolved
and assigned `poseLandmarker`; `closed` records whether
`poseLandmarker.close()` has been called; `ready` records whether the
ready state update was published; `rafPending` records whether an
animation-frame callback is scheduled.

Two atomic events model the two suspension points that can interleave
with the effect cleanup:

* `acquireResolved` — the `await PoseLandmarker.createFromOptions(...)`
  resolves: `poseLandmarker` is assigned; then the source checks
  `if (!running) return;` — when the flag is down it returns at once
  (publishing nothing and scheduling nothing), otherwise it publishes
  readiness and schedules the first tick.
* `cleanup` — the effect cleanup: sets `running = false`, cancels the
  pending animation frame, and calls `close()` on `poseLandmarker` when
  (and only when) it is non-null at that moment.
-/

/-- Observable state of one acquisition-loop session (see the module
comment above). -/
structure SessionState where
  running : Bool
  created : Bool
  closed : Bool
  ready : Bool
  rafPending : Bool
  deriving DecidableEq

/-- Session state at the start of the effect body: running, nothing
created, closed or scheduled. -/
def initSession : SessionState :=
  { running := true, created := false, closed := false,
    ready := false, rafPending := false }

/-- The two events that can interleave with the effect cleanup. -/
inductive SessionEvent where
  | acquireResolved
  | cleanup
  deriving DecidableEq

/-- One event's effect on the session state, following the source lines:
`poseLandmarker = await ...; if (!running) return; setState(ready);
rafRef.current = requestAnimationFrame(detect)` for `acquireResolved`, and
`running = false; cancelAnimationFrame(...); if (poseLandmarker?.close)
poseLandmarker.close()` for `cleanup`. -/
def sessionStep (s : SessionState) (e : SessionEvent) : SessionState :=
  match e with
  | .acquireResolved =>
      if s.running then
        { s with created := true, ready := true, rafPending := true }
      else
        { s with created := true }
  | .cleanup =>
      { s with running := false, rafPending := false,
               closed := s.closed || s.created }

/-- Run a sequence of session events from the initial state. -/
def runSession (events : List SessionEvent) : SessionState :=
  events.foldl sessionStep initSession

end

/-! Theorems. General helper lemmas first. -/

/-- Clamping lands in the interval when the bounds are ordered. -/
lemma clamp_mem (v lo hi : ℝ) (h : lo ≤ hi) :
    lo ≤ clamp v lo hi ∧ clamp v lo hi ≤ hi :=
  ⟨le_max_left _ _, max_le h (min_le_left _ _)⟩

/-- Clamping is monotone in the clamped value. -/
lemma clamp_mono {a b : ℝ} (lo hi : ℝ) (h : a ≤ b) :
    clamp a lo hi ≤ clamp b lo hi :=
  max_le_max le_rfl (min_le_min le_rfl h)

/-- Hypot of two zeros is zero. -/
lemma hypot_zero : hypot 0 0 = 0 := by
  simp [hypot]

/-- Hypot is nonnegative. -/
lemma hypot_nonneg (a b : ℝ) : 0 ≤ hypot a b :=
  Real.sqrt_nonneg _

/-- Visibility weights are nonnegative. -/
lemma visibilityWeight_nonneg (c : PoseLandmarkMap) (k : Keypoint) :
    0 ≤ visibilityWeight c k := by
  unfold visibilityWeight
  split
  · norm_num
  · exact le_max_left _ _

/-- A landmark present with visibility 1 has weight 1. -/
lemma visibilityWeight_one (c : PoseLandmarkMap) (k : Keypoint) (p : PosePoint3D)
    (hp : c k = some p) (hv : p.visibility = some 1) :
    visibilityWeight c k = 1 := by
  unfold visibilityWeight
  rw [hp, Option.some_bind, hv]
  show clamp ((1 - 0.2) / 0.8) 0 1 = 1
  unfold clamp
  rw [show ((1 : ℝ) - 0.2) / 0.8 = 1 by norm_num, min_self,
      max_eq_right (by norm_num : (0 : ℝ) ≤ 1)]

/-- Normalization preserves which keys are present. -/
lemma normalize_isSome (c : PoseLandmarkMap) (k : Keypoint) :
    (normalizeLandmarks c k).isSome = (c k).isSome := by
  simp [normalizeLandmarks]

/-- The converted target map is total, so its normalization is too. -/
lemma targetNorm_isSome (t : Skeleton) (k : Keypoint) :
    (normalizeLandmarks (skeletonToLandmarks t) k).isSome = true := by
  simp [normalizeLandmarks, skeletonToLandmarks]

/-- Folding a pairwise-additive step over a list sums the contributions. -/
lemma foldl_pair_sum (f : ℝ × ℝ → Keypoint → ℝ × ℝ) (g1 g2 : Keypoint → ℝ) :
    ∀ l : List Keypoint,
      (∀ (acc : ℝ × ℝ) k, k ∈ l → f acc k = (acc.1 + g1 k, acc.2 + g2 k)) →
      ∀ acc : ℝ × ℝ,
        l.foldl f acc = (acc.1 + (l.map g1).sum, acc.2 + (l.map g2).sum) := by
  intro l
  induction l with
  | nil => intro _ acc; simp
  | cons a l ih =>
      intro hf acc
      rw [List.foldl_cons, hf acc a (List.mem_cons_self a l),
        ih (fun acc k hk => hf acc k (List.mem_cons_of_mem a hk))]
      simp [add_assoc]

/-- One iteration of the scoring loop adds the per-key terms. -/
lemma scoreStep_eq (c : PoseLandmarkMap) (t : Skeleton) (acc : ℝ × ℝ) (k : Keypoint) :
    scoreStep c (normalizeLandmarks c)
      (normalizeLandmarks (skeletonToLandmarks t)) acc k =
    (acc.1 + keyTerm1 c t k, acc.2 + keyTerm2 c t k) := by
  obtain ⟨b, hb⟩ := Option.isSome_iff_exists.mp (targetNorm_isSome t k)
  cases ha : normalizeLandmarks c k with
  | none => simp [scoreStep, keyTerm1, keyTerm2, keyDistance, ha, hb]
  | some a => simp [scoreStep, keyTerm1, keyTerm2, keyDistance, ha, hb]

/-- The loop accumulator equals the sums of the per-key terms. -/
lemma scoreTotals_eq (c : PoseLandmarkMap) (t : Skeleton) :
    scoreTotals c t = ((REQUIRED_SCORE_KEYS.map (keyTerm1 c t)).sum,
                       (REQUIRED_SCORE_KEYS.map (keyTerm2 c t)).sum) := by
  unfold scoreTotals
  rw [foldl_pair_sum _ (keyTerm1 c t) (keyTerm2 c t) REQUIRED_SCORE_KEYS
    (fun acc k _ => scoreStep_eq c t acc k) (0, 0)]
  simp

/-- Per-key distances are nonnegative. -/
lemma keyDistance_nonneg (c : PoseLandmarkMap) (t : Skeleton) (k : Keypoint) :
    0 ≤ keyDistance c t k := by
  unfold keyDistance
  split
  · exact hypot_nonneg _ _
  · exact le_refl 0

/-- Per-key weight terms are nonnegative. -/
lemma keyTerm2_nonneg (c : PoseLandmarkMap) (t : Skeleton) (k : Keypoint) :
    0 ≤ keyTerm2 c t k := by
  unfold keyTerm2
  split
  · exact visibilityWeight_nonneg c k
  · exact le_refl 0

/-- The total weight accumulated by the scoring loop is nonnegative. -/
lemma totals2_nonneg (c : PoseLandmarkMap) (t : Skeleton) :
    0 ≤ (scoreTotals c t).2 := by
  rw [scoreTotals_eq]
  refine List.sum_nonneg ?_
  intro x hx
  obtain ⟨k, _, rfl⟩ := List.mem_map.mp hx
  exact keyTerm2_nonneg c t k

/-- Claim C1, counterexample: the nose is tracked in the previous smoothed
map but absent from the new detection `mappedEx`; the smoothing update
drops it from the smoothed map instead of holding its previous value, so a
previously tracked keypoint does disappear when one detection omits it. -/
theorem C1_counterexample :
    prevEx .nose = some ⟨1, 2, 0, none⟩ ∧
    mappedEx .nose = none ∧
    smoothStep prevEx mappedEx (35 / 100) .nose = none :=
  ⟨rfl, rfl, rfl⟩

/-- Claim C1 (amended): the smoothing update iterates over the keys of the
new detection only, so a keypoint absent from the new detection is dropped
from the smoothed map (not held at its previous value); it is a keypoint
absent from the previous smoothed map that is defaulted — it enters the
smoothed map exactly at the new detection's value. -/
theorem C1_amended_smoothing (previous mapped : PoseLandmarkMap) (s : ℝ)
    (key : Keypoint) :
    (mapped key = none → smoothStep previous mapped s key = none) ∧
    (previous key = none → smoothStep previous mapped s key = mapped key) := by
  constructor
  · intro h
    simp [smoothStep, h]
  · intro h
    cases hm : mapped key with
    | none => simp [smoothStep, hm]
    | some v =>
        cases v with
        | mk x y z vis =>
            cases vis <;> simp [smoothStep, hm, h, smoothPoint]

/-- Claim C1 (amended), witness at the concrete example maps. -/
theorem C1_amended_smoothing_witness :
    (mappedEx .nose = none ∧ smoothStep prevEx mappedEx (35 / 100) .nose = none) ∧
    (prevEx .leftEye = none ∧
      smoothStep prevEx mappedEx (35 / 100) .leftEye = mappedEx .leftEye) :=
  ⟨⟨rfl, (C1_amended_smoothing prevEx mappedEx (35 / 100) .nose).1 rfl⟩,
   ⟨rfl, (C1_amended_smoothing prevEx mappedEx (35 / 100) .leftEye).2 rfl⟩⟩

/-- Claim C2: on the trace where the effect cleanup runs while detector
acquisition is still pending and the acquisition resolves afterwards, the
landmarker is created but `close()` is never called — the detector
capability leaks, contradicting the claim that it is released on every
exit path. (On the ordinary trace, resolve then cleanup, it is closed; and
the late resolve publishes no readiness and schedules no tick, so the
discarded session state is not otherwise mutated.) -/
theorem C2_capability_leak :
    (runSession [.acquireResolved, .cleanup]).created = true ∧
    (runSession [.acquireResolved, .cleanup]).closed = true ∧
    (runSession [.cleanup, .acquireResolved]).created = true ∧
    (runSession [.cleanup, .acquireResolved]).closed = false ∧
    (runSession [.cleanup, .acquireResolved]).ready = false ∧
    (runSession [.cleanup, .acquireResolved]).rafPending = false := by
  decide

/-- Claim C10: in the smoothing update, when a key is present in both the
previous smoothed map and the new detection, x, y and z are exponentially
smoothed, and the visibility is frozen at the previous smoothed value when
that is defined — the new detection's visibility is used only when the
previous smoothed visibility is undefined. -/
theorem C10_visibility_frozen (previous mapped : PoseLandmarkMap) (s : ℝ)
    (key : Keypoint) (p v : PosePoint3D)
    (hp : previous key = some p) (hv : mapped key = some v) :
    ∃ q, smoothStep previous mapped s key = some q ∧
      q.x = p.x + (v.x - p.x) * s ∧
      q.y = p.y + (v.y - p.y) * s ∧
      q.z = p.z + (v.z - p.z) * s ∧
      q.visibility = if p.visibility.isSome then p.visibility else v.visibility := by
  refine ⟨smoothPoint p v s, ?_, rfl, rfl, rfl, ?_⟩
  · simp [smoothStep, hp, hv]
  · cases h : p.visibility <;> simp [smoothPoint, h]

/-- Claim C10, witness at concrete maps: the previous visibility 1/2 is
kept and the new detection's 9/10 is ignored. -/
theorem C10_visibility_frozen_witness :
    ∃ q, smoothStep prevVisEx mappedVisEx (35 / 100) .nose = some q ∧
      q.x = 1 + (5 - 1) * (35 / 100) ∧
      q.y = 2 + (6 - 2) * (35 / 100) ∧
      q.z = 3 + (7 - 3) * (35 / 100) ∧
      q.visibility = if (Option.some (1 / 2 : ℝ)).isSome
                     then some (1 / 2 : ℝ) else some (9 / 10 : ℝ) :=
  C10_visibility_frozen prevVisEx mappedVisEx (35 / 100) .nose
    ⟨1, 2, 3, some (1 / 2)⟩ ⟨5, 6, 7, some (9 / 10)⟩ rfl rfl

/-- Claim C9: the match score lies in [0,1], the pose scale is strictly
positive (so the divisions in normalization cannot divide by zero), and
all five rig signals lie in [-1,1]; in the real-number model every derived
scalar is thereby finite and clamped. -/
theorem C9_bounded_outputs (m : PoseLandmarkMap) (target : Option Skeleton) :
    (0 ≤ calculatePoseMatchScore m target ∧ calculatePoseMatchScore m target ≤ 1) ∧
    0 < getPoseScale m ∧
    (-1 ≤ (getFoxRigSignals m).headTilt ∧ (getFoxRigSignals m).headTilt ≤ 1) ∧
    (-1 ≤ (getFoxRigSignals m).leftArmLift ∧ (getFoxRigSignals m).leftArmLift ≤ 1) ∧
    (-1 ≤ (getFoxRigSignals m).rightArmLift ∧ (getFoxRigSignals m).rightArmLift ≤ 1) ∧
    (-1 ≤ FoxRigSignals.bodyLean (getFoxRigSignals m) ∧
      FoxRigSignals.bodyLean (getFoxRigSignals m) ≤ 1) ∧
    (-1 ≤ (getFoxRigSignals m).balanceShift ∧ (getFoxRigSignals m).balanceShift ≤ 1) := by
  refine ⟨?_, ?_, ?_, ?_, ?_, ?_, ?_⟩
  · cases target with
    | none =>
        constructor <;> norm_num [calculatePoseMatchScore]
    | some t =>
        by_cases h : (scoreTotals m t).2 = 0
        · constructor <;> simp [calculatePoseMatchScore, h]
        · simp only [calculatePoseMatchScore, if_neg h]
          exact clamp_mem _ 0 1 (by norm_num)
  · unfold getPoseScale
    split
    · exact lt_of_lt_of_le (by norm_num) (le_max_left _ _)
    · norm_num
  · exact clamp_mem _ (-1) 1 (by norm_num)
  · exact clamp_mem _ (-1) 1 (by norm_num)
  · exact clamp_mem _ (-1) 1 (by norm_num)
  · exact clamp_mem _ (-1) 1 (by norm_num)
  · exact clamp_mem _ (-1) 1 (by norm_num)

/-- Claim C8: the scorer degrades to 0 rather than raising — a null target
yields 0, and a zero accumulated total weight (no scorable visible keys)
yields 0. -/
theorem C8_degenerate_zero (current : PoseLandmarkMap) (target : Skeleton) :
    calculatePoseMatchScore current none = 0 ∧
    ((scoreTotals current target).2 = 0 →
      calculatePoseMatchScore current (some target) = 0) := by
  refine ⟨rfl, fun h => ?_⟩
  simp [calculatePoseMatchScore, h]

/-- Claim C8, witness: the empty current map has zero total weight, and
the score is 0 both for a null target and for `initialPose`. -/
theorem C8_degenerate_zero_witness :
    (scoreTotals emptyMap initialPose).2 = 0 ∧
    calculatePoseMatchScore emptyMap none = 0 ∧
    calculatePoseMatchScore emptyMap (some initialPose) = 0 := by
  have h : (scoreTotals emptyMap initialPose).2 = 0 := rfl
  exact ⟨h, (C8_degenerate_zero emptyMap initialPose).1,
    (C8_degenerate_zero emptyMap initialPose).2 h⟩

/-- Claim C7: when fewer than 6 of the 9 priority keys count as visible
(visibility absent counts as visible, else it must exceed 0.45), the
composer returns the fixed reposition message regardless of score; and the
composer always returns a non-empty string. -/
theorem C7_reposition_and_nonempty (score : ℝ) (m : PoseLandmarkMap) :
    (visibleCount m < 6 →
      getPoseFeedback score m = "Step back so your full upper body is visible.") ∧
    getPoseFeedback score m ≠ "" := by
  constructor
  · intro h
    simp [getPoseFeedback, h]
  · unfold getPoseFeedback
    split_ifs <;> decide

/-- Claim C7, witness: `lowVisMap` has only 5 visible priority keys, so
even at score 0.99 the reposition message is returned, and it is
non-empty. -/
theorem C7_reposition_and_nonempty_witness :
    visibleCount lowVisMap < 6 ∧
    getPoseFeedback (99 / 100) lowVisMap =
      "Step back so your full upper body is visible." ∧
    getPoseFeedback (99 / 100) lowVisMap ≠ "" := by
  have h5 : visibleCount lowVisMap = 5 := by
    norm_num [visibleCount, REQUIRED_SCORE_KEYS, lowVisMap, List.foldl]
  have h : visibleCount lowVisMap < 6 := by omega
  exact ⟨h, (C7_reposition_and_nonempty (99 / 100) lowVisMap).1 h,
    (C7_reposition_and_nonempty (99 / 100) lowVisMap).2⟩

/-- The four tier messages are pairwise distinct, so the tier message
determines the emotion. -/
lemma tierMessage_inj (e f : FoxEmotion) : tierMessage e = tierMessage f ↔ e = f := by
  cases e <;> cases f <;> simp [tierMessage]

/-- Away from the three boundary scores, the composer's tier message is
the one indexed by the classifier's emotion. -/
lemma feedback_eq_tier (score : ℝ) (m : PoseLandmarkMap)
    (hv : ¬ (visibleCount m < 6))
    (h1 : score ≠ 0.4) (h2 : score ≠ 0.7) (h3 : score ≠ 0.9) :
    getPoseFeedback score m = tierMessage (getFoxEmotion score) := by
  simp only [getPoseFeedback, getFoxEmotion, if_neg hv]
  rcases h1.lt_or_lt with hA | hA
  · rw [if_pos hA, if_pos hA.le]
    rfl
  · rw [if_neg (lt_asymm hA), if_neg (not_le.mpr hA)]
    rcases h2.lt_or_lt with hB | hB
    · rw [if_pos hB, if_pos hB.le]
      rfl
    · rw [if_neg (lt_asymm hB), if_neg (not_le.mpr hB)]
      rcases h3.lt_or_lt with hC | hC
      · rw [if_pos hC, if_pos hC.le]
        rfl
      · rw [if_neg (lt_asymm hC), if_neg (not_le.mpr hC)]
        rfl

/-- Claim C6, counterexample: at the boundary score 0.4 with a fully
visible map, the classifier (which uses ≤) returns confused while the
composer (which uses <) already returns the tier-2 message, so the tier-1
message is not returned exactly when the emotion is confused. -/
theorem C6_counterexample :
    getFoxEmotion 0.4 = FoxEmotion.confused ∧
    6 ≤ visibleCount emptyMap ∧
    getPoseFeedback 0.4 emptyMap =
      "Fox is focusing. Small arm and torso adjustments needed." ∧
    getPoseFeedback 0.4 emptyMap ≠
      "Fox is playful. Match shoulder and elbow angles first." := by
  have h9 : visibleCount emptyMap = 9 := rfl
  have hfb : getPoseFeedback 0.4 emptyMap =
      "Fox is focusing. Small arm and torso adjustments needed." := by
    unfold getPoseFeedback
    rw [h9, if_neg (by norm_num), if_neg (by norm_num), if_pos (by norm_num)]
  refine ⟨?_, by rw [h9]; omega, hfb, by rw [hfb]; decide⟩
  unfold getFoxEmotion
  rw [if_pos le_rfl]

/-- Claim C6 (amended): the composer compares with strict `<` while the
classifier compares with `≤`, so the tier/emotion correspondence holds for
every score other than the three breakpoints 0.4, 0.7 and 0.9 themselves
(given at least 6 visible priority keys); at a breakpoint the composer
returns the next tier's message while the classifier still returns the
lower state. -/
theorem C6_amended_tier_alignment (score : ℝ) (m : PoseLandmarkMap)
    (hvis : 6 ≤ visibleCount m)
    (h1 : score ≠ 0.4) (h2 : score ≠ 0.7) (h3 : score ≠ 0.9) :
    (getPoseFeedback score m = "Fox is playful. Match shoulder and elbow angles first."
      ↔ getFoxEmotion score = FoxEmotion.confused) ∧
    (getPoseFeedback score m = "Fox is focusing. Small arm and torso adjustments needed."
      ↔ getFoxEmotion score = FoxEmotion.focused) ∧
    (getPoseFeedback score m = "Nice pose. Hold steady and refine your balance."
      ↔ getFoxEmotion score = FoxEmotion.happy) ∧
    (getPoseFeedback score m = "Perfect match. Fox is celebrating!"
      ↔ getFoxEmotion score = FoxEmotion.celebrate) := by
  rw [feedback_eq_tier score m (not_lt.mpr hvis) h1 h2 h3]
  refine ⟨?_, ?_, ?_, ?_⟩
  · exact ⟨fun h => (tierMessage_inj _ FoxEmotion.confused).mp (h.trans rfl),
      fun h => by rw [h]; rfl⟩
  · exact ⟨fun h => (tierMessage_inj _ FoxEmotion.focused).mp (h.trans rfl),
      fun h => by rw [h]; rfl⟩
  · exact ⟨fun h => (tierMessage_inj _ FoxEmotion.happy).mp (h.trans rfl),
      fun h => by rw [h]; rfl⟩
  · exact ⟨fun h => (tierMessage_inj _ FoxEmotion.celebrate).mp (h.trans rfl),
      fun h => by rw [h]; rfl⟩

/-- Claim C6 (amended), witness at score 1/2 (between 0.4 and 0.7) on the
fully visible empty map: the tier-2 message coincides with the focused
emotion and the other tiers are excluded. -/
theorem C6_amended_tier_alignment_witness :
    6 ≤ visibleCount emptyMap ∧
    ((1 : ℝ) / 2 ≠ 0.4 ∧ (1 : ℝ) / 2 ≠ 0.7 ∧ (1 : ℝ) / 2 ≠ 0.9) ∧
    ((getPoseFeedback (1 / 2) emptyMap =
        "Fox is playful. Match shoulder and elbow angles first."
      ↔ getFoxEmotion (1 / 2) = FoxEmotion.confused) ∧
     (getPoseFeedback (1 / 2) emptyMap =
        "Fox is focusing. Small arm and torso adjustments needed."
      ↔ getFoxEmotion (1 / 2) = FoxEmotion.focused) ∧
     (getPoseFeedback (1 / 2) emptyMap =
        "Nice pose. Hold steady and refine your balance."
      ↔ getFoxEmotion (1 / 2) = FoxEmotion.happy) ∧
     (getPoseFeedback (1 / 2) emptyMap = "Perfect match. Fox is celebrating!"
      ↔ getFoxEmotion (1 / 2) = FoxEmotion.celebrate)) := by
  have h9 : visibleCount emptyMap = 9 := rfl
  have hv : 6 ≤ visibleCount emptyMap := by rw [h9]; omega
  exact ⟨hv, ⟨by norm_num, by norm_num, by norm_num⟩,
    C6_amended_tier_alignment (1 / 2) emptyMap hv
      (by norm_num) (by norm_num) (by norm_num)⟩

/-- When the current map is the converted target (with visibility 1), the
pose centers of the converted target and the current map agree. -/
lemma perfect_center (target : Skeleton) (current : PoseLandmarkMap)
    (hc : ∀ key, current key = some
      { x := (target key).x / 100, y := (target key).y / 100,
        z := 0, visibility := some 1 }) :
    getPoseCenter (skeletonToLandmarks target) = getPoseCenter current := by
  simp [getPoseCenter, skeletonToLandmarks, xOr0, yOr0, hc]

/-- When the current map is the converted target (with visibility 1), the
pose scales of the converted target and the current map agree. -/
lemma perfect_scale (target : Skeleton) (current : PoseLandmarkMap)
    (hc : ∀ key, current key = some
      { x := (target key).x / 100, y := (target key).y / 100,
        z := 0, visibility := some 1 }) :
    getPoseScale (skeletonToLandmarks target) = getPoseScale current := by
  simp [getPoseScale, skeletonToLandmarks, hc, torsoMeasure]

/-- When the current map is the converted target (with visibility 1),
every per-key scoring distance vanishes. -/
lemma keyDistance_self (target : Skeleton) (current : PoseLandmarkMap)
    (hc : ∀ key, current key = some
      { x := (target key).x / 100, y := (target key).y / 100,
        z := 0, visibility := some 1 })
    (k : Keypoint) : keyDistance current target k = 0 := by
  have hA : normalizeLandmarks current k = some
      { x := ((target k).x / 100 - (getPoseCenter current).x) / getPoseScale current,
        y := ((target k).y / 100 - (getPoseCenter current).y) / getPoseScale current,
        z := 0 / getPoseScale current, visibility := some 1 } := by
    simp [normalizeLandmarks, hc k]
  have hB : normalizeLandmarks (skeletonToLandmarks target) k = some
      { x := ((target k).x / 100 - (getPoseCenter (skeletonToLandmarks target)).x) /
          getPoseScale (skeletonToLandmarks target),
        y := ((target k).y / 100 - (getPoseCenter (skeletonToLandmarks target)).y) /
          getPoseScale (skeletonToLandmarks target),
        z := 0 / getPoseScale (skeletonToLandmarks target), visibility := none } := by
    simp [normalizeLandmarks, skeletonToLandmarks]
  rw [perfect_center target current hc, perfect_scale target current hc] at hB
  unfold keyDistance
  rw [hA, hB]
  simp [hypot]

/-- Claim C3: when the current map equals the converted target exactly
(z = 0, all visibilities 1), the score is at least 0.99 and the feedback
is the top-tier perfect-match message. -/
theorem C3_perfect_pose_top_tier (target : Skeleton) (current : PoseLandmarkMap)
    (hc : ∀ key, current key = some
      { x := (target key).x / 100, y := (target key).y / 100,
        z := 0, visibility := some 1 }) :
    0.99 ≤ calculatePoseMatchScore current (some target) ∧
    getPoseFeedback (calculatePoseMatchScore current (some target)) current =
      "Perfect match. Fox is celebrating!" := by
  have hw1 : ∀ k, visibilityWeight current k = 1 := fun k =>
    visibilityWeight_one current k _ (hc k) rfl
  have hpres : ∀ k, (normalizeLandmarks current k).isSome = true := by
    intro k
    rw [normalize_isSome, hc k]
    rfl
  have ht1 : ∀ k ∈ REQUIRED_SCORE_KEYS,
      keyTerm1 current target k = (fun _ => (0 : ℝ)) k := by
    intro k _
    simp [keyTerm1, hpres k, keyDistance_self target current hc k]
  have ht2 : ∀ k ∈ REQUIRED_SCORE_KEYS,
      keyTerm2 current target k = (fun _ => (1 : ℝ)) k := by
    intro k _
    simp [keyTerm2, hpres k, hw1 k]
  have htot : scoreTotals current target = (0, 9) := by
    rw [scoreTotals_eq, List.map_congr_left ht1, List.map_congr_left ht2]
    norm_num [REQUIRED_SCORE_KEYS]
  have hscore : calculatePoseMatchScore current (some target) = 1 := by
    simp only [calculatePoseMatchScore, htot]
    norm_num [clamp, min_def, max_def]
  have hvc : visibleCount current = 9 := by
    norm_num [visibleCount, REQUIRED_SCORE_KEYS, List.foldl, hc]
  have hfb : getPoseFeedback 1 current = "Perfect match. Fox is celebrating!" := by
    unfold getPoseFeedback
    rw [hvc, if_neg (by omega), if_neg (by norm_num), if_neg (by norm_num),
      if_neg (by norm_num)]
  exact ⟨by rw [hscore]; norm_num, by rw [hscore]; exact hfb⟩

/-- Claim C3, witness: `c3Current` is exactly the converted `initialPose`
with all visibilities 1, and the conclusion holds there. -/
theorem C3_perfect_pose_top_tier_witness :
    0.99 ≤ calculatePoseMatchScore c3Current (some initialPose) ∧
    getPoseFeedback (calculatePoseMatchScore c3Current (some initialPose)) c3Current =
      "Perfect match. Fox is celebrating!" :=
  C3_perfect_pose_top_tier initialPose c3Current (fun _ => rfl)

/-- Claim C5: for a fixed target, equal presence, equal visibility weights
and equal distances at all other priority keys, increasing the normalized
distance at one priority key never increases the score. -/
theorem C5_score_monotone (target : Skeleton) (c1 c2 : PoseLandmarkMap) (k : Keypoint)
    (hpres : ∀ k' ∈ REQUIRED_SCORE_KEYS, (c1 k').isSome = (c2 k').isSome)
    (hw : ∀ k' ∈ REQUIRED_SCORE_KEYS, visibilityWeight c1 k' = visibilityWeight c2 k')
    (hd : ∀ k' ∈ REQUIRED_SCORE_KEYS, k' ≠ k →
      keyDistance c1 target k' = keyDistance c2 target k')
    (hdk : keyDistance c1 target k ≤ keyDistance c2 target k) :
    calculatePoseMatchScore c2 (some target) ≤
      calculatePoseMatchScore c1 (some target) := by
  have hterm2 : ∀ k' ∈ REQUIRED_SCORE_KEYS,
      keyTerm2 c1 target k' = keyTerm2 c2 target k' := by
    intro k' hk'
    unfold keyTerm2
    rw [normalize_isSome, normalize_isSome, hpres k' hk', hw k' hk']
  have hterm1 : ∀ k' ∈ REQUIRED_SCORE_KEYS,
      keyTerm1 c1 target k' ≤ keyTerm1 c2 target k' := by
    intro k' hk'
    unfold keyTerm1
    rw [normalize_isSome, normalize_isSome, hpres k' hk', hw k' hk']
    by_cases hkk : k' = k
    · subst hkk
      split
      · exact mul_le_mul_of_nonneg_right hdk (visibilityWeight_nonneg c2 k')
      · exact le_refl 0
    · rw [hd k' hk' hkk]
  have hW : (scoreTotals c1 target).2 = (scoreTotals c2 target).2 := by
    rw [scoreTotals_eq, scoreTotals_eq, List.map_congr_left hterm2]
  by_cases h0 : (scoreTotals c1 target).2 = 0
  · have h0' : (scoreTotals c2 target).2 = 0 := hW ▸ h0
    simp [calculatePoseMatchScore, h0, h0']
  · have h0' : ¬ (scoreTotals c2 target).2 = 0 := by
      rw [← hW]
      exact h0
    simp only [calculatePoseMatchScore, if_neg h0, if_neg h0']
    apply clamp_mono
    have hWpos : 0 < (scoreTotals c1 target).2 :=
      lt_of_le_of_ne (totals2_nonneg c1 target) (Ne.symm h0)
    have hD : (scoreTotals c1 target).1 ≤ (scoreTotals c2 target).1 := by
      rw [scoreTotals_eq, scoreTotals_eq]
      exact List.sum_le_sum hterm1
    rw [← hW]
    have hdiv : (scoreTotals c1 target).1 / (scoreTotals c1 target).2 ≤
        (scoreTotals c2 target).1 / (scoreTotals c1 target).2 :=
      (div_le_div_iff_of_pos_right hWpos).mpr hD
    have hdiv2 : (scoreTotals c1 target).1 / (scoreTotals c1 target).2 / 1.25 ≤
        (scoreTotals c2 target).1 / (scoreTotals c1 target).2 / 1.25 :=
      (div_le_div_iff_of_pos_right (by norm_num)).mpr hdiv
    linarith

/-- Claim C5, witness: moving only the nose of the perfectly matching map
`c3Current` (zero nose distance) to `c5Moved` (nonnegative nose distance),
with presence, weights and all other distances unchanged, does not
increase the score. -/
theorem C5_score_monotone_witness :
    (∀ k' ∈ REQUIRED_SCORE_KEYS, (c3Current k').isSome = (c5Moved k').isSome) ∧
    (∀ k' ∈ REQUIRED_SCORE_KEYS,
      visibilityWeight c3Current k' = visibilityWeight c5Moved k') ∧
    (∀ k' ∈ REQUIRED_SCORE_KEYS, k' ≠ Keypoint.nose →
      keyDistance c3Current initialPose k' = keyDistance c5Moved initialPose k') ∧
    keyDistance c3Current initialPose Keypoint.nose ≤
      keyDistance c5Moved initialPose Keypoint.nose ∧
    calculatePoseMatchScore c5Moved (some initialPose) ≤
      calculatePoseMatchScore c3Current (some initialPose) := by
  have hpres : ∀ k' ∈ REQUIRED_SCORE_KEYS,
      (c3Current k').isSome = (c5Moved k').isSome := by
    intro k' hk'
    fin_cases hk' <;> rfl
  have hw : ∀ k' ∈ REQUIRED_SCORE_KEYS,
      visibilityWeight c3Current k' = visibilityWeight c5Moved k' := by
    intro k' hk'
    fin_cases hk' <;> rfl
  have hd : ∀ k' ∈ REQUIRED_SCORE_KEYS, k' ≠ Keypoint.nose →
      keyDistance c3Current initialPose k' = keyDistance c5Moved initialPose k' := by
    intro k' hk' hne
    fin_cases hk'
    · exact absurd rfl hne
    all_goals rfl
  have hdk : keyDistance c3Current initialPose Keypoint.nose ≤
      keyDistance c5Moved initialPose Keypoint.nose := by
    rw [keyDistance_self initialPose c3Current (fun _ => rfl) Keypoint.nose]
    exact keyDistance_nonneg c5Moved initialPose Keypoint.nose
  exact ⟨hpres, hw, hd, hdk,
    C5_score_monotone initialPose c3Current c5Moved Keypoint.nose hpres hw hd hdk⟩

/-- Square root of four. -/
lemma sqrt_four : Real.sqrt 4 = 2 := by
  rw [show (4 : ℝ) = 2 ^ 2 by norm_num, Real.sqrt_sq (by norm_num : (0 : ℝ) ≤ 2)]

/-- The raw torso measure of the example map `m4`. -/
lemma m4_torsoMeasure :
    torsoMeasure ⟨1, 0, 0, none⟩ ⟨0, 0, 0, none⟩ ⟨1, 1, 0, none⟩ ⟨0, 1, 0, none⟩
      = 1.3 := by
  unfold torsoMeasure hypot
  norm_num [Real.sqrt_one]

/-- The raw torso measure of `m4` after doubling every x and y. -/
lemma m4_torsoMeasure_scaled :
    torsoMeasure ⟨2 * 1, 2 * 0, 0, none⟩ ⟨2 * 0, 2 * 0, 0, none⟩
      ⟨2 * 1, 2 * 1, 0, none⟩ ⟨2 * 0, 2 * 1, 0, none⟩ = 2.6 := by
  unfold torsoMeasure hypot
  norm_num [sqrt_four]

/-- Pose scale of `m4`. -/
lemma m4_scale : getPoseScale m4 = 1.3 := by
  show max 0.0001 (torsoMeasure ⟨1, 0, 0, none⟩ ⟨0, 0, 0, none⟩
    ⟨1, 1, 0, none⟩ ⟨0, 1, 0, none⟩) = 1.3
  rw [m4_torsoMeasure]
  norm_num [max_def]

/-- Pose scale of `m4` after doubling every x and y. -/
lemma m4_scaled_scale : getPoseScale (scaleMapXY 2 m4) = 2.6 := by
  show max 0.0001 (torsoMeasure ⟨2 * 1, 2 * 0, 0, none⟩ ⟨2 * 0, 2 * 0, 0, none⟩
    ⟨2 * 1, 2 * 1, 0, none⟩ ⟨2 * 0, 2 * 1, 0, none⟩) = 2.6
  rw [m4_torsoMeasure_scaled]
  norm_num [max_def]

/-- Claim C4, counterexample: `m4` has all four torso points present and
both pre-floor scales are above the 0.0001 floor, yet scaling only x and y
by 2 changes the normalized output — the nose's normalized z becomes
1/2.6 instead of 1/1.3, because z is divided by the (scaled) pose scale
while the transformation left z itself unscaled. -/
theorem C4_counterexample :
    (m4 .leftShoulder).isSome = true ∧ (m4 .rightShoulder).isSome = true ∧
    (m4 .leftHip).isSome = true ∧ (m4 .rightHip).isSome = true ∧
    (0 : ℝ) < 2 ∧
    (0.0001 : ℝ) ≤ torsoMeasure ⟨1, 0, 0, none⟩ ⟨0, 0, 0, none⟩
      ⟨1, 1, 0, none⟩ ⟨0, 1, 0, none⟩ ∧
    (0.0001 : ℝ) ≤ torsoMeasure ⟨2 * 1, 2 * 0, 0, none⟩ ⟨2 * 0, 2 * 0, 0, none⟩
      ⟨2 * 1, 2 * 1, 0, none⟩ ⟨2 * 0, 2 * 1, 0, none⟩ ∧
    normalizeLandmarks (scaleMapXY 2 m4) ≠ normalizeLandmarks m4 := by
  refine ⟨rfl, rfl, rfl, rfl, by norm_num,
    by rw [m4_torsoMeasure]; norm_num,
    by rw [m4_torsoMeasure_scaled]; norm_num, ?_⟩
  intro hEq
  have h := congrFun hEq Keypoint.nose
  have hz : (1 : ℝ) / getPoseScale (scaleMapXY 2 m4) = 1 / getPoseScale m4 :=
    congrArg (fun o => (Option.map PosePoint3D.z o).getD 0) h
  rw [m4_scale, m4_scaled_scale] at hz
  norm_num at hz

/-- Claim C4 (amended): the normalizer is invariant under a uniform
positive scaling of x, y AND z together with a translation of x and y,
given all four torso points present and both pre-floor torso measures at
or above the 0.0001 floor. (Scaling x and y only is not an invariance:
the normalized z changes, as the counterexample shows.) -/
theorem C4_amended_invariance (m : PoseLandmarkMap) (s dx dy : ℝ) (hs : 0 < s)
    (ls rs lh rh : PosePoint3D)
    (hls : m .leftShoulder = some ls) (hrs : m .rightShoulder = some rs)
    (hlh : m .leftHip = some lh) (hrh : m .rightHip = some rh)
    (hfloor : 0.0001 ≤ torsoMeasure ls rs lh rh)
    (hfloor2 : 0.0001 ≤ s * torsoMeasure ls rs lh rh) :
    normalizeLandmarks (translateMap dx dy (scaleMapXYZ s m)) = normalizeLandmarks m := by
  have hyps : ∀ a b : ℝ, hypot (s * a) (s * b) = s * hypot a b := by
    intro a b
    unfold hypot
    rw [mul_pow, mul_pow, ← mul_add, Real.sqrt_mul (sq_nonneg s), Real.sqrt_sq hs.le]
  set T := translateMap dx dy (scaleMapXYZ s m) with hT
  have hTat : ∀ key p, m key = some p →
      T key = some ⟨s * p.x + dx, s * p.y + dy, s * p.z, p.visibility⟩ := by
    intro key p hp
    simp [hT, translateMap, scaleMapXYZ, hp]
  have hTnone : ∀ key, m key = none → T key = none := by
    intro key hp
    simp [hT, translateMap, scaleMapXYZ, hp]
  have hmeas : torsoMeasure ⟨s * ls.x + dx, s * ls.y + dy, s * ls.z, ls.visibility⟩
      ⟨s * rs.x + dx, s * rs.y + dy, s * rs.z, rs.visibility⟩
      ⟨s * lh.x + dx, s * lh.y + dy, s * lh.z, lh.visibility⟩
      ⟨s * rh.x + dx, s * rh.y + dy, s * rh.z, rh.visibility⟩
      = s * torsoMeasure ls rs lh rh := by
    unfold torsoMeasure
    dsimp only
    rw [show s * ls.x + dx - (s * rs.x + dx) = s * (ls.x - rs.x) by ring,
        show s * ls.y + dy - (s * rs.y + dy) = s * (ls.y - rs.y) by ring,
        show s * lh.x + dx - (s * rh.x + dx) = s * (lh.x - rh.x) by ring,
        show s * lh.y + dy - (s * rh.y + dy) = s * (lh.y - rh.y) by ring,
        show (s * ls.x + dx + (s * rs.x + dx)) / 2 - (s * lh.x + dx + (s * rh.x + dx)) / 2
          = s * ((ls.x + rs.x) / 2 - (lh.x + rh.x) / 2) by ring,
        show (s * ls.y + dy + (s * rs.y + dy)) / 2 - (s * lh.y + dy + (s * rh.y + dy)) / 2
          = s * ((ls.y + rs.y) / 2 - (lh.y + rh.y) / 2) by ring,
        hyps, hyps, hyps]
    ring
  have hM : (0 : ℝ) < torsoMeasure ls rs lh rh := lt_of_lt_of_le (by norm_num) hfloor
  have hsM : (0 : ℝ) < s * torsoMeasure ls rs lh rh := mul_pos hs hM
  have hscaleM : getPoseScale m = torsoMeasure ls rs lh rh := by
    unfold getPoseScale
    simp only [hls, hrs, hlh, hrh]
    exact max_eq_right hfloor
  have hscaleT : getPoseScale T = s * torsoMeasure ls rs lh rh := by
    unfold getPoseScale
    simp only [hTat _ _ hls, hTat _ _ hrs, hTat _ _ hlh, hTat _ _ hrh]
    rw [hmeas]
    exact max_eq_right hfloor2
  have hcx : (getPoseCenter T).x = s * (getPoseCenter m).x + dx := by
    unfold getPoseCenter
    dsimp only
    simp only [hTat _ _ hls, hTat _ _ hrs, hTat _ _ hlh, hTat _ _ hrh,
      hls, hrs, hlh, hrh, xOr0]
    ring
  have hcy : (getPoseCenter T).y = s * (getPoseCenter m).y + dy := by
    unfold getPoseCenter
    dsimp only
    simp only [hTat _ _ hls, hTat _ _ hrs, hTat _ _ hlh, hTat _ _ hrh,
      hls, hrs, hlh, hrh, yOr0]
    ring
  funext k
  cases hk : m k with
  | none =>
      simp [normalizeLandmarks, hTnone k hk, hk]
  | some p =>
      simp only [normalizeLandmarks, hTat k p hk, hk, Option.map_some']
      rw [hscaleT, hscaleM, hcx, hcy]
      simp only [Option.some.injEq, PosePoint3D.mk.injEq]
      refine ⟨?_, ?_, ?_, trivial⟩
      · rw [div_eq_div_iff (ne_of_gt hsM) (ne_of_gt hM)]
        ring
      · rw [div_eq_div_iff (ne_of_gt hsM) (ne_of_gt hM)]
        ring
      · rw [div_eq_div_iff (ne_of_gt hsM) (ne_of_gt hM)]
        ring

/-- Claim C4 (amended), witness at the concrete map `m4` with s = 2,
dx = 3, dy = 5. -/
theorem C4_amended_invariance_witness :
    (0 : ℝ) < 2 ∧
    m4 .leftShoulder = some ⟨1, 0, 0, none⟩ ∧
    m4 .rightShoulder = some ⟨0, 0, 0, none⟩ ∧
    m4 .leftHip = some ⟨1, 1, 0, none⟩ ∧
    m4 .rightHip = some ⟨0, 1, 0, none⟩ ∧
    (0.0001 : ℝ) ≤ torsoMeasure ⟨1, 0, 0, none⟩ ⟨0, 0, 0, none⟩
      ⟨1, 1, 0, none⟩ ⟨0, 1, 0, none⟩ ∧
    (0.0001 : ℝ) ≤ 2 * torsoMeasure ⟨1, 0, 0, none⟩ ⟨0, 0, 0, none⟩
      ⟨1, 1, 0, none⟩ ⟨0, 1, 0, none⟩ ∧
    normalizeLandmarks (translateMap 3 5 (scaleMapXYZ 2 m4)) = normalizeLandmarks m4 := by
  have hf : (0.0001 : ℝ) ≤ torsoMeasure ⟨1, 0, 0, none⟩ ⟨0, 0, 0, none⟩
      ⟨1, 1, 0, none⟩ ⟨0, 1, 0, none⟩ := by
    rw [m4_torsoMeasure]
    norm_num
  have hf2 : (0.0001 : ℝ) ≤ 2 * torsoMeasure ⟨1, 0, 0, none⟩ ⟨0, 0, 0, none⟩
      ⟨1, 1, 0, none⟩ ⟨0, 1, 0, none⟩ := by
    rw [m4_torsoMeasure]
    norm_num
  exact ⟨by norm_num, rfl, rfl, rfl, rfl, hf, hf2,
    C4_amended_invariance m4 2 3 5 (by norm_num) _ _ _ _ rfl rfl rfl rfl hf hf2⟩

end PoseStudio
